import Mathlib

/-!
# Verification of the pumpfun-monitor-client SSE core

Shallow embedding of the SSE line decoder, event assembler, connection
liveness logic, statistics manager and session-controller loop of
`client.py`, together with proofs of the specified properties.

Conventions:
* Python strings are Lean `String`s; Python's `str.startswith`, slicing
  `s[n:]` and `str.strip()` are modelled on the underlying character list.
* Python `float` timestamps (`time.time()`) are modelled as rationals `ℚ`.
* `json.loads` is an external library call; it is modelled as a parameter
  `jl : String → Option Json` (`none` = `json.JSONDecodeError`).
-/

/-- JSON values, the result type of the (parameterised) `json.loads`. -/
inductive Json where
  | null : Json
  | bool : Bool → Json
  | num : ℚ → Json
  | str : String → Json
  | arr : List Json → Json
  | obj : List (String × Json) → Json

/-- `chStartsWith p s` is Python's `s.startswith(p)` on character lists. -/
def chStartsWith : List Char → List Char → Bool
  | [], _ => true
  | _ :: _, [] => false
  | p :: ps, c :: cs => p == c && chStartsWith ps cs

/-- Python's `str.strip()`: remove whitespace from both ends. -/
def stripChars (l : List Char) : List Char :=
  ((l.dropWhile Char.isWhitespace).reverse.dropWhile Char.isWhitespace).reverse

/-- Python `line[n:].strip()` as a `String` operation. -/
def dropStrip (s : String) (n : Nat) : String := ⟨stripChars (s.data.drop n)⟩

def eventPrefix : List Char := ['e', 'v', 'e', 'n', 't', ':', ' ']
def dataPrefix : List Char := ['d', 'a', 't', 'a', ':', ' ']
def idPrefix : List Char := ['i', 'd', ':', ' ']

/-- Protocol tokens produced by the line decoder (`parse_sse_line`'s
non-`None` return values: `{'type': 'event'|'data'|'id', ...}`). -/
inductive SSEToken where
  | event (name : String)
  | data (d : Json)
  | id (i : String)

/-- The fallback payload for a `data:` line whose remainder is not valid
JSON: `{'message': data_str, 'is_text': True}` (client.py:312). -/
def textFallback (data_str : String) : Json :=
  Json.obj [("message", Json.str data_str), ("is_text", Json.bool true)]

/-- `SSEClient.parse_sse_line` (client.py:290-320), parameterised by the
JSON decoder `jl`.  Empty lines and `:`-comments yield `none`; `event: `,
`data: ` and `id: ` lines yield tokens; any other line yields `none`. -/
def parse_sse_line (jl : String → Option Json) (line : String) : Option SSEToken :=
  if line.data.isEmpty || chStartsWith [':'] line.data then none
  else if chStartsWith eventPrefix line.data then some (.event (dropStrip line 7))
  else if chStartsWith dataPrefix line.data then
    let data_str := dropStrip line 6
    match jl data_str with
    | some d => some (.data d)
    | none => some (.data (textFallback data_str))
  else if chStartsWith idPrefix line.data then some (.id (dropStrip line 4))
  else none

/-- The in-progress / emitted logical event of `listen_stream`: the dict
`{'event': ..., 'data': ..., 'id': ...}` where `data` and `id` may be
absent. -/
structure CurEvent where
  event : String
  data : Option Json := none
  id : Option String := none

/-- One traversal of `SSEClient.listen_stream`'s loop body
(client.py:331-351), starting from in-progress state `cur`, returning the
list of yielded events. -/
def listen_go (jl : String → Option Json) : Option CurEvent → List String → List CurEvent
  | _, [] => []
  | cur, l :: ls =>
    match parse_sse_line jl l with
    | none =>
      match cur with
      | some ev => ev :: listen_go jl none ls
      | none => listen_go jl none ls
    | some (.event n) => listen_go jl (some { event := n }) ls
    | some (.data d) =>
      match cur with
      | some ev => listen_go jl (some { ev with data := some d }) ls
      | none => listen_go jl none ls
    | some (.id i) =>
      match cur with
      | some ev => listen_go jl (some { ev with id := some i }) ls
      | none => listen_go jl none ls

/-- `SSEClient.listen_stream` on a finite sequence of decoded lines:
the list of logical events it yields. -/
def listen_stream (jl : String → Option Json) (lines : List String) : List CurEvent :=
  listen_go jl none lines

/-- A concrete JSON decoder instance that always fails (used to
instantiate the `jl` parameter in witnesses). -/
def jlNone : String → Option Json := fun _ => none

/-- The JSON-or-text-fallback value a `data: ` line's payload decodes to. -/
def jsonOrText (jl : String → Option Json) (s : String) : Json :=
  match jl s with
  | some d => d
  | none => textFallback s

/-- `l.startswith('event: ')` as used in `parse_sse_line`. -/
def isEventLine (l : String) : Bool := chStartsWith eventPrefix l.data

/-- `l.startswith('data: ')` as used in `parse_sse_line`. -/
def isDataLine (l : String) : Bool := chStartsWith dataPrefix l.data

/-- `l.startswith('id: ')` as used in `parse_sse_line`. -/
def isIdLine (l : String) : Bool := chStartsWith idPrefix l.data

/-- The event name `parse_sse_line` extracts from an `event: ` line:
`line[7:].strip()`. -/
def eventName (l : String) : String := dropStrip l 7

/-- The data value `parse_sse_line` extracts from a `data: ` line:
`json.loads(line[6:].strip())`, or the text fallback. -/
def dataValue (jl : String → Option Json) (l : String) : Json :=
  jsonOrText jl (dropStrip l 6)

/-- The id `parse_sse_line` extracts from an `id: ` line: `line[4:].strip()`. -/
def idValue (l : String) : String := dropStrip l 4

/-- The last `data: ` line of a list of lines, if any. -/
def lastDataLine (mid : List String) : Option String := (mid.filter isDataLine).getLast?

/-- The last `id: ` line of a list of lines, if any. -/
def lastIdLine (mid : List String) : Option String := (mid.filter isIdLine).getLast?

/-- The in-progress event obtained from `ev` after consuming a run of
`data: `/`id: ` lines: data and id are overwritten by the last such line. -/
def frameResult (jl : String → Option Json) (ev : CurEvent) (mid : List String) : CurEvent :=
  { ev with data := ((lastDataLine mid).map (dataValue jl)).or ev.data,
            id := ((lastIdLine mid).map idValue).or ev.id }

lemma chStartsWith_iff (ps : List Char) : ∀ cs, chStartsWith ps cs = true ↔ ∃ t, cs = ps ++ t := by
  induction ps with
  | nil => intro cs; simp [chStartsWith]
  | cons p ps ih =>
    intro cs
    cases cs with
    | nil => simp [chStartsWith]
    | cons c cs =>
      simp only [chStartsWith, Bool.and_eq_true, beq_iff_eq, ih, List.cons_append,
        List.cons.injEq]
      constructor
      · rintro ⟨rfl, t, rfl⟩; exact ⟨t, rfl, rfl⟩
      · rintro ⟨t, rfl, rfl⟩; exact ⟨rfl, t, rfl⟩

lemma startsWith_decomp {pre : List Char} {l : String} (h : chStartsWith pre l.data = true) :
    ∃ t, l = ⟨pre ++ t⟩ := by
  obtain ⟨t, ht⟩ := (chStartsWith_iff pre l.data).mp h
  exact ⟨t, by cases l with | mk d => exact congrArg String.mk ht⟩

lemma parse_event_app (jl : String → Option Json) (t : List Char) :
    parse_sse_line jl ⟨eventPrefix ++ t⟩ = some (.event ⟨stripChars t⟩) := rfl

lemma parse_id_app (jl : String → Option Json) (t : List Char) :
    parse_sse_line jl ⟨idPrefix ++ t⟩ = some (.id ⟨stripChars t⟩) := rfl

lemma parse_data_app (jl : String → Option Json) (t : List Char) :
    parse_sse_line jl ⟨dataPrefix ++ t⟩ = some (.data (jsonOrText jl ⟨stripChars t⟩)) := by
  show (match jl ⟨stripChars t⟩ with
        | some d => some (SSEToken.data d)
        | none => some (.data (textFallback ⟨stripChars t⟩))) =
      some (.data (jsonOrText jl ⟨stripChars t⟩))
  unfold jsonOrText
  cases jl ⟨stripChars t⟩ <;> rfl

lemma parse_event_line (jl : String → Option Json) (l : String) (h : isEventLine l = true) :
    parse_sse_line jl l = some (.event (eventName l)) := by
  obtain ⟨t, rfl⟩ := startsWith_decomp h
  exact parse_event_app jl t

lemma parse_data_line (jl : String → Option Json) (l : String) (h : isDataLine l = true) :
    parse_sse_line jl l = some (.data (dataValue jl l)) := by
  obtain ⟨t, rfl⟩ := startsWith_decomp h
  exact parse_data_app jl t

lemma parse_id_line (jl : String → Option Json) (l : String) (h : isIdLine l = true) :
    parse_sse_line jl l = some (.id (idValue l)) := by
  obtain ⟨t, rfl⟩ := startsWith_decomp h
  exact parse_id_app jl t

lemma parse_blank (jl : String → Option Json) : parse_sse_line jl "" = none := rfl

lemma data_not_id {l : String} (h : isDataLine l = true) : isIdLine l = false := by
  obtain ⟨t, rfl⟩ := startsWith_decomp h
  rfl

lemma id_not_data {l : String} (h : isIdLine l = true) : isDataLine l = false := by
  obtain ⟨t, rfl⟩ := startsWith_decomp h
  rfl

lemma listen_go_cons_event (jl : String → Option Json) (cur : Option CurEvent) (l : String)
    (ls : List String) (h : isEventLine l = true) :
    listen_go jl cur (l :: ls) = listen_go jl (some { event := eventName l }) ls := by
  simp only [listen_go, parse_event_line jl l h]

lemma listen_go_cons_data (jl : String → Option Json) (ev : CurEvent) (l : String)
    (ls : List String) (h : isDataLine l = true) :
    listen_go jl (some ev) (l :: ls) =
      listen_go jl (some { ev with data := some (dataValue jl l) }) ls := by
  simp only [listen_go, parse_data_line jl l h]

lemma listen_go_cons_id (jl : String → Option Json) (ev : CurEvent) (l : String)
    (ls : List String) (h : isIdLine l = true) :
    listen_go jl (some ev) (l :: ls) =
      listen_go jl (some { ev with id := some (idValue l) }) ls := by
  simp only [listen_go, parse_id_line jl l h]

lemma listen_go_blank_emit (jl : String → Option Json) (ev : CurEvent) (ls : List String) :
    listen_go jl (some ev) ("" :: ls) = ev :: listen_go jl none ls := by
  simp only [listen_go, parse_blank]

lemma getLast?_cons_or {α : Type} (a : α) (l : List α) :
    (a :: l).getLast? = l.getLast?.or (some a) := by
  cases l with
  | nil => rfl
  | cons b bs =>
    rw [List.getLast?_cons_cons]
    obtain ⟨x, hx⟩ := Option.isSome_iff_exists.mp (List.getLast?_isSome.mpr (by simp : b :: bs ≠ []))
    simp [hx]

lemma opt_map_or {α β : Type} (f : α → β) (a b : Option α) :
    (a.or b).map f = (a.map f).or (b.map f) := by
  cases a <;> rfl

lemma frameResult_cons_data (jl : String → Option Json) (ev : CurEvent) (l : String)
    (ls : List String) (h : isDataLine l = true) :
    frameResult jl ev (l :: ls) = frameResult jl { ev with data := some (dataValue jl l) } ls := by
  simp only [frameResult, lastDataLine, lastIdLine, List.filter_cons, h, data_not_id h,
    if_pos, Bool.false_eq_true, if_neg, getLast?_cons_or, opt_map_or, Option.map_some]
  cases ((ls.filter isDataLine).getLast?.map (dataValue jl)) <;> rfl

lemma frameResult_cons_id (jl : String → Option Json) (ev : CurEvent) (l : String)
    (ls : List String) (h : isIdLine l = true) :
    frameResult jl ev (l :: ls) = frameResult jl { ev with id := some (idValue l) } ls := by
  simp only [frameResult, lastDataLine, lastIdLine, List.filter_cons, h, id_not_data h,
    if_pos, Bool.false_eq_true, if_neg, getLast?_cons_or, opt_map_or, Option.map_some]
  cases ((ls.filter isIdLine).getLast?.map idValue) <;> rfl

lemma listen_go_fields (jl : String → Option Json) (ev : CurEvent) (mid : List String)
    (rest : List String) (h : ∀ l ∈ mid, isDataLine l = true ∨ isIdLine l = true) :
    listen_go jl (some ev) (mid ++ rest) = listen_go jl (some (frameResult jl ev mid)) rest := by
  induction mid generalizing ev with
  | nil => rfl
  | cons l ls ih =>
    rcases h l (List.mem_cons_self l ls) with hl | hl
    · rw [List.cons_append, listen_go_cons_data jl ev l _ hl,
        ih _ fun x hx => h x (List.mem_cons_of_mem l hx), frameResult_cons_data jl ev l ls hl]
    · rw [List.cons_append, listen_go_cons_id jl ev l _ hl,
        ih _ fun x hx => h x (List.mem_cons_of_mem l hx), frameResult_cons_id jl ev l ls hl]

/-- `event.get('data', {})` (client.py:529): the data the session
controller dispatches to `handle_sse_event`, defaulting to the empty JSON
object when the assembled event carries no data field. -/
def event_data_of (ev : CurEvent) : Json := ev.data.getD (Json.obj [])

/-- C1: for any well-formed SSE frame — an `event: ` line, zero or more
`data: `/`id: ` lines, a blank line — `listen_stream` over
`parse_sse_line` emits exactly one logical event whose name is the
trimmed remainder of the `event: ` line, whose data is the decoded value
of the last `data: ` line (if any) and whose id is the trimmed remainder
of the last `id: ` line (if any). -/
theorem assembler_wellformed_frame (jl : String → Option Json) (e : String)
    (mid : List String) (he : isEventLine e = true)
    (hmid : ∀ l ∈ mid, isDataLine l = true ∨ isIdLine l = true) :
    listen_stream jl (e :: (mid ++ [""])) =
      [{ event := eventName e,
         data := (lastDataLine mid).map (dataValue jl),
         id := (lastIdLine mid).map idValue }] := by
  unfold listen_stream
  rw [listen_go_cons_event jl none e _ he, listen_go_fields jl _ mid [""] hmid,
    listen_go_blank_emit]
  simp only [frameResult, Option.or_none, listen_go]

theorem assembler_wellformed_frame_witness :
    isEventLine "event: trade" = true ∧
    (∀ l ∈ ["data: a", "id: 9", "data: b"], isDataLine l = true ∨ isIdLine l = true) ∧
    listen_stream jlNone ["event: trade", "data: a", "id: 9", "data: b", ""] =
      [{ event := "trade", data := some (textFallback "b"), id := some "9" }] :=
  ⟨rfl, by decide,
    assembler_wellformed_frame jlNone "event: trade" ["data: a", "id: 9", "data: b"]
      rfl (by decide)⟩

/-- C5: if a second `event: ` line arrives before any blank line, the
assembler discards the first in-progress event entirely: the only emitted
event is built from the second `event: ` line and the `data: `/`id: `
lines of its own frame. -/
theorem assembler_discards_unterminated (jl : String → Option Json) (e1 e2 : String)
    (mid1 mid2 : List String) (he1 : isEventLine e1 = true) (he2 : isEventLine e2 = true)
    (h1 : ∀ l ∈ mid1, isDataLine l = true ∨ isIdLine l = true)
    (h2 : ∀ l ∈ mid2, isDataLine l = true ∨ isIdLine l = true) :
    listen_stream jl (e1 :: (mid1 ++ (e2 :: (mid2 ++ [""])))) =
      [{ event := eventName e2,
         data := (lastDataLine mid2).map (dataValue jl),
         id := (lastIdLine mid2).map idValue }] := by
  unfold listen_stream
  rw [listen_go_cons_event jl none e1 _ he1, listen_go_fields jl _ mid1 _ h1,
    listen_go_cons_event jl _ e2 _ he2, listen_go_fields jl _ mid2 [""] h2,
    listen_go_blank_emit]
  simp only [frameResult, Option.or_none, listen_go]

theorem assembler_discards_unterminated_witness :
    isEventLine "event: a" = true ∧ isEventLine "event: b" = true ∧
    (∀ l ∈ ["data: 1", "id: x"], isDataLine l = true ∨ isIdLine l = true) ∧
    (∀ l ∈ ["data: 2"], isDataLine l = true ∨ isIdLine l = true) ∧
    listen_stream jlNone ["event: a", "data: 1", "id: x", "event: b", "data: 2", ""] =
      [{ event := "b", data := some (textFallback "2"), id := none }] :=
  ⟨rfl, rfl, by decide, by decide,
    assembler_discards_unterminated jlNone "event: a" "event: b" ["data: 1", "id: x"]
      ["data: 2"] rfl rfl (by decide) (by decide)⟩

/-- C2 (refuted, code bug): in `listen_stream`, a comment line and an
unrecognized non-blank line both flush the in-progress event, because
`parse_sse_line` returns `None` for them just as for a blank line and the
loop emits on every `None` — here an event is emitted although no blank
line ever arrives, and data following the comment is lost. -/
theorem comment_line_flushes :
    listen_stream jlNone ["event: trade", ": keepalive", "data: hi", ""] =
      [{ event := "trade", data := none, id := none }] ∧
    listen_stream jlNone ["event: trade", "retry: 5"] =
      [{ event := "trade", data := none, id := none }] :=
  ⟨rfl, rfl⟩

/-- C4: a `data: ` line whose payload is not valid JSON (the decoder `jl`
returns `none`) yields a `Data` token wrapping
`{message: <raw text>, is_text: true}`; and on every input line
`parse_sse_line` totally returns a token or `none` (it is a total
function — the embedding of "never raises"). -/
theorem parse_sse_line_degrades :
    (∀ (jl : String → Option Json) (line : String), isDataLine line = true →
        jl (dropStrip line 6) = none →
        parse_sse_line jl line = some (.data (textFallback (dropStrip line 6)))) ∧
    (∀ (jl : String → Option Json) (line : String),
        parse_sse_line jl line = none ∨ ∃ t, parse_sse_line jl line = some t) := by
  constructor
  · intro jl line h1 h2
    obtain ⟨t, rfl⟩ := startsWith_decomp h1
    have h2' : jl ⟨stripChars t⟩ = none := h2
    rw [parse_data_app]
    unfold jsonOrText
    rw [h2']
    rfl
  · intro jl line
    cases parse_sse_line jl line with
    | none => exact .inl rfl
    | some t => exact .inr ⟨t, rfl⟩

theorem parse_sse_line_degrades_witness :
    isDataLine "data: not json" = true ∧
    jlNone (dropStrip "data: not json" 6) = none ∧
    parse_sse_line jlNone "data: not json" = some (.data (textFallback "not json")) :=
  ⟨rfl, rfl, parse_sse_line_degrades.1 jlNone "data: not json" rfl rfl⟩

/-- C10: a frame of just an `event: ` line and a blank line is emitted
with no data field at all, and the session controller's
`event.get('data', {})` turns that absent field into the empty JSON
object, so handlers never receive a missing data value. -/
theorem empty_frame_dispatch (jl : String → Option Json) (e : String)
    (he : isEventLine e = true) :
    listen_stream jl [e, ""] = [{ event := eventName e, data := none, id := none }] ∧
    event_data_of { event := eventName e, data := none, id := none } = Json.obj [] := by
  refine ⟨?_, rfl⟩
  unfold listen_stream
  rw [listen_go_cons_event jl none e _ he, listen_go_blank_emit]
  rfl

theorem empty_frame_dispatch_witness :
    isEventLine "event: ping" = true ∧
    (listen_stream jlNone ["event: ping", ""] =
        [{ event := "ping", data := none, id := none }] ∧
      event_data_of { event := "ping", data := none, id := none } = Json.obj []) :=
  ⟨rfl, empty_frame_dispatch jlNone "event: ping" rfl⟩

/-! ## Connection manager: timestamps, staleness, health checks -/

/-- The configuration fields consumed by the embedded core
(`PumpMonitorConfig`, config.py:11-43), with its defaults.  Timestamps and
durations (Python `int`/`float` seconds) are rationals. -/
structure PumpMonitorConfig where
  connection_timeout : ℚ := 15
  read_timeout : Option ℚ := none
  stream_timeout : ℚ := 180
  reconnect_delay : ℚ := 3
  max_retries : Nat := 10
  health_check_interval : ℚ := 240
  show_detailed_logs : Bool := true
  show_stats_interval : ℚ := 60
  quiet_mode : Bool := false
  show_raw_data : Bool := false
  save_to_file : Bool := true
  enable_debug_logging : Bool := false

/-- The mutable connection state of `SSEClient` (client.py:172-176). -/
structure SSEClientState where
  connection_id : Option Json := none
  last_data_time : ℚ
  last_health_check : Option ℚ := none
  connected : Bool := false

/-- `SSEClient.__init__`'s connection state: `last_data_time = time.time()`,
no health-check timestamp, not connected. -/
def sseClientInit (now : ℚ) : SSEClientState := { last_data_time := now }

/-- `SSEClient.needs_health_check` (client.py:211-221).  Python's
`if not self.last_health_check` is truthiness: it fires on `None` and on
the float `0.0`. -/
def needs_health_check (cfg : PumpMonitorConfig) (st : SSEClientState) (now : ℚ) : Bool :=
  match st.last_health_check with
  | none => true
  | some t => if t = 0 then true else decide (now - t > cfg.health_check_interval)

/-- The state effect of `SSEClient.perform_health_check` (client.py:223-245):
`ok` is the outcome of the out-of-band HTTP probe; on success the probe
timestamp is set to now, on failure the state is unchanged. -/
def perform_health_check (ok : Bool) (st : SSEClientState) (now : ℚ) : SSEClientState × Bool :=
  if ok then ({ st with last_health_check := some now }, true) else (st, false)

/-- The state effect of `SSEClient.connect_stream` (client.py:247-270):
`ok` is the outcome of the streaming GET; on success `connected` is set
and both `last_data_time` and `last_health_check` are initialized to now;
on failure `connected` is cleared. -/
def connect_stream (ok : Bool) (st : SSEClientState) (now : ℚ) : SSEClientState × Bool :=
  if ok then
    ({ st with connected := true, last_data_time := now, last_health_check := some now }, true)
  else
    ({ st with connected := false }, false)

/-- `SSEClient.is_connection_stale` (client.py:272-284). -/
def is_connection_stale (cfg : PumpMonitorConfig) (st : SSEClientState) (now : ℚ) : Bool :=
  decide (now - st.last_data_time > cfg.stream_timeout)

/-- `SSEClient.update_data_time` (client.py:286-288). -/
def update_data_time (st : SSEClientState) (now : ℚ) : SSEClientState :=
  { st with last_data_time := now }

/-- The default configuration and a freshly initialized client, for
concrete instantiations. -/
def cfg0 : PumpMonitorConfig := {}

def client0 : SSEClientState := sseClientInit 0

/-- C6: `is_connection_stale` is true iff strictly more than
`stream_timeout` has passed since `last_data_time`; at or before the
boundary it is false. -/
theorem is_stale_iff :
    ∀ (cfg : PumpMonitorConfig) (st : SSEClientState) (now : ℚ),
      (is_connection_stale cfg st now = true ↔ now - st.last_data_time > cfg.stream_timeout) ∧
      (now - st.last_data_time ≤ cfg.stream_timeout → is_connection_stale cfg st now = false) := by
  intro cfg st now
  refine ⟨by simp [is_connection_stale], fun h => ?_⟩
  simp only [is_connection_stale, decide_eq_false_iff_not]
  exact not_lt.mpr h

theorem is_stale_iff_witness :
    (180 : ℚ) - client0.last_data_time ≤ cfg0.stream_timeout ∧
    is_connection_stale cfg0 client0 180 = false :=
  ⟨by norm_num [client0, sseClientInit, cfg0],
    (is_stale_iff cfg0 client0 180).2 (by norm_num [client0, sseClientInit, cfg0])⟩

/-- C3 counterexample: immediately after a successful connect (connect
time 1000, asked again at time 1000 with the default 240-second
interval), `needs_health_check` is `false`, not `true`: `connect_stream`
already initialized `last_health_check`, so there is no "first call
returns true" after a successful connect. -/
theorem needs_health_check_after_connect_cx :
    needs_health_check cfg0 (connect_stream true client0 1000).1 1000 = false := by
  norm_num [needs_health_check, connect_stream, client0, sseClientInit, cfg0]

/-- C3 (amended): `needs_health_check` is true when the stored probe
timestamp is Python-falsy (`None` — i.e. no successful connect or probe
ever happened — or the float `0.0`); a successful connect initializes the
timestamp to the connect time, so right after a connect (at nonzero time,
within the interval) it is false, and for any recorded nonzero timestamp
it is true iff strictly more than `health_check_interval` has elapsed
since that timestamp. -/
theorem needs_health_check_characterization :
    (∀ (cfg : PumpMonitorConfig) (st : SSEClientState) (now : ℚ),
        st.last_health_check = none → needs_health_check cfg st now = true) ∧
    (∀ (cfg : PumpMonitorConfig) (st : SSEClientState) (now t : ℚ),
        st.last_health_check = some t → t ≠ 0 →
        (needs_health_check cfg st now = true ↔ now - t > cfg.health_check_interval)) ∧
    (∀ (cfg : PumpMonitorConfig) (st : SSEClientState) (now0 now : ℚ), now0 ≠ 0 →
        now - now0 ≤ cfg.health_check_interval →
        needs_health_check cfg (connect_stream true st now0).1 now = false) := by
  refine ⟨?_, ?_, ?_⟩
  · intro cfg st now h
    simp [needs_health_check, h]
  · intro cfg st now t h ht
    simp [needs_health_check, h, ht]
  · intro cfg st now0 now h0 hle
    simp [needs_health_check, connect_stream, h0]
    linarith

theorem needs_health_check_characterization_witness :
    (1000 : ℚ) ≠ 0 ∧ (1000 : ℚ) - 1000 ≤ cfg0.health_check_interval ∧
    needs_health_check cfg0 (connect_stream true client0 1000).1 1000 = false :=
  ⟨by norm_num, by norm_num [cfg0],
    needs_health_check_characterization.2.2 cfg0 client0 1000 1000 (by norm_num)
      (by norm_num [cfg0])⟩

/-! ## Statistics manager -/

/-- The mutable state of `StatsManager` (client.py:87-93); the Python dict
`event_counts` is an insertion-ordered association list. -/
structure StatsState where
  total_events : Nat := 0
  event_counts : List (String × Nat) := []
  connections : Int := 0

/-- `d.get(k, 0)` on the counts dict. -/
def dictGet (d : List (String × Nat)) (k : String) : Nat :=
  match d with
  | [] => 0
  | (k', v) :: rest => if k' = k then v else dictGet rest k

/-- `d[k] = v` on the counts dict: overwrite the existing binding or
append a new one. -/
def dictSet (d : List (String × Nat)) (k : String) (v : Nat) : List (String × Nat) :=
  match d with
  | [] => [(k, v)]
  | (k', v') :: rest => if k' = k then (k, v) :: rest else (k', v') :: dictSet rest k v

/-- `StatsManager.add_event` (client.py:95-103). -/
def add_event (st : StatsState) (event_type : String) : StatsState :=
  { st with
    total_events := st.total_events + 1,
    event_counts := dictSet st.event_counts event_type (dictGet st.event_counts event_type + 1) }

/-- `StatsManager.update_connection_count` (client.py:105-112). -/
def update_connection_count (st : StatsState) (count : Int) : StatsState :=
  { st with connections := count }

/-- `StatsManager.__init__`'s counters. -/
def initStats : StatsState := {}

/-- A call to one of the two mutating `StatsManager` methods. -/
inductive StatsOp where
  | add (event_type : String)
  | updateConnections (count : Int)

def stats_step (st : StatsState) : StatsOp → StatsState
  | .add t => add_event st t
  | .updateConnections c => update_connection_count st c

def stats_run (st : StatsState) : List StatsOp → StatsState
  | [] => st
  | op :: ops => stats_run (stats_step st op) ops

/-- The sum of all per-type counters. -/
def sumCounts (st : StatsState) : Nat := (st.event_counts.map Prod.snd).sum

lemma dictGet_dictSet_self (d : List (String × Nat)) (k : String) (v : Nat) :
    dictGet (dictSet d k v) k = v := by
  induction d with
  | nil => simp [dictGet, dictSet]
  | cons hd rest ih =>
    obtain ⟨k', v'⟩ := hd
    by_cases h : k' = k <;> simp [dictGet, dictSet, h, ih]

lemma sum_dictSet_incr (d : List (String × Nat)) (k : String) :
    ((dictSet d k (dictGet d k + 1)).map Prod.snd).sum = (d.map Prod.snd).sum + 1 := by
  induction d with
  | nil => simp [dictGet, dictSet]
  | cons hd rest ih =>
    obtain ⟨k', v'⟩ := hd
    by_cases h : k' = k
    · simp [dictGet, dictSet, h]
      omega
    · simp [dictGet, dictSet, h, ih]
      omega

/-- C9: from a fresh `StatsManager`, after every finite sequence of
`add_event` / `update_connection_count` calls, `total_events` equals the
sum of all values of `event_counts`; and each `add_event t` increments
both `total_events` and the counter of `t` by exactly one. -/
theorem stats_manager_invariant :
    (∀ ops : List StatsOp,
        (stats_run initStats ops).total_events = sumCounts (stats_run initStats ops)) ∧
    (∀ (st : StatsState) (t : String),
        (add_event st t).total_events = st.total_events + 1 ∧
        dictGet (add_event st t).event_counts t = dictGet st.event_counts t + 1) := by
  constructor
  · have key : ∀ (ops : List StatsOp) (st : StatsState), st.total_events = sumCounts st →
        (stats_run st ops).total_events = sumCounts (stats_run st ops) := by
      intro ops
      induction ops with
      | nil => intro st h; exact h
      | cons op ops ih =>
        intro st h
        apply ih
        cases op with
        | add t =>
          simp only [stats_step, add_event, sumCounts] at h ⊢
          rw [sum_dictSet_incr, ← h]
        | updateConnections c =>
          simpa [stats_step, update_connection_count, sumCounts] using h
    exact fun ops => key ops initStats rfl
  · exact fun st t => ⟨rfl, dictGet_dictSet_self _ _ _⟩

/-! ## Session controller and event handling -/

/-- One observable call to an external collaborator made by
`handle_sse_event` (console display, formatter, file writer). -/
inductive Effect where
  | console_connected (endpoint : Json) (connection_id : Option Json)
  | raw_output (event_name : String) (data : Json)
  | formatted_output (event_name : String) (data : Json)
  | file_save (event_name : String) (data : Json)

/-- `kvs.get(k)` on a JSON object's members (first binding wins, as in a
Python dict, whose keys are unique). -/
def objGet : List (String × Json) → String → Option Json
  | [], _ => none
  | (k', v) :: rest, k => if k' = k then some v else objGet rest k

/-- `kvs.get(k, default)`. -/
def objGetD (kvs : List (String × Json)) (k : String) (default : Json) : Json :=
  (objGet kvs k).getD default

/-- The client state `PumpMonitorClient.handle_sse_event` can touch. -/
structure MonitorState where
  sse : SSEClientState
  stats : StatsState

/-- `PumpMonitorClient.handle_sse_event` (client.py:384-425): updates the
data timestamp; a `connected` event records the connection id and prints
(unless quiet; non-dict data raises `AttributeError`, swallowed by the
handler's `except` after the timestamp update); a `ping` event does
nothing else; any other event is counted in the statistics, optionally
shown raw and/or formatted, and saved when a file manager exists
(`config.save_to_file`). -/
def handle_sse_event (cfg : PumpMonitorConfig) (st : MonitorState) (now : ℚ)
    (event_name : String) (data : Json) : MonitorState × List Effect :=
  let st1 : MonitorState := { st with sse := update_data_time st.sse now }
  if event_name = "connected" then
    match data with
    | .obj kvs =>
      ({ st1 with sse := { st1.sse with connection_id := objGet kvs "connection_id" } },
        if cfg.quiet_mode then []
        else [.console_connected (objGetD kvs "endpoint" (.str "unknown")) (objGet kvs "connection_id")])
    | _ => (st1, [])
  else if event_name = "ping" then
    (st1, [])
  else
    ({ st1 with stats := add_event st1.stats event_name },
      (if cfg.show_raw_data && !cfg.quiet_mode then [.raw_output event_name data] else []) ++
      (if cfg.show_detailed_logs && !cfg.quiet_mode then [.formatted_output event_name data] else []) ++
      (if cfg.save_to_file then [.file_save event_name data] else []))

/-- C8: handling a `ping` logical event updates only `last_data_time`:
the statistics, the connection id and every other component of the state
are unchanged, and no formatter, console or file-writer call is made. -/
theorem ping_updates_liveness_only (cfg : PumpMonitorConfig) (st : MonitorState) (now : ℚ)
    (data : Json) :
    handle_sse_event cfg st now "ping" data =
      ({ st with sse := { st.sse with last_data_time := now } }, []) := rfl

/-- The retry skeleton of `PumpMonitorClient._run_sse_monitor`
(client.py:476-500): each entry of the list is the outcome of one
`connect_stream` call, in order; the result is how many connect attempts
the loop performs.  A success resets `connection_attempts` to 0 (the
streaming phase is abstracted as eventually returning to the loop top); a
failure increments it and, when it reaches `max_retries`, the loop breaks
without any further connect attempt. -/
def run_connect_loop (max_retries : Nat) : Nat → List Bool → Nat
  | _, [] => 0
  | attempts, ok :: rest =>
    if ok then 1 + run_connect_loop max_retries 0 rest
    else if max_retries ≤ attempts + 1 then 1
    else 1 + run_connect_loop max_retries (attempts + 1) rest

lemma run_connect_loop_exhaust (m : Nat) :
    ∀ (k a : Nat) (rest : List Bool), 1 ≤ k → a + k = m →
      run_connect_loop m a (List.replicate k false ++ rest) = k := by
  intro k
  induction k with
  | zero => intro a rest h _; omega
  | succ k ih =>
    intro a rest _ hm
    rcases Nat.eq_zero_or_pos k with h0 | hpos
    · subst h0
      have hle : m ≤ a + 1 := by omega
      simp [run_connect_loop, hle]
    · have hlt : ¬ m ≤ a + 1 := by omega
      have h2 := ih (a + 1) rest hpos (by omega)
      rw [List.replicate_succ, List.cons_append, run_connect_loop]
      rw [if_neg (by simp), if_neg hlt, h2]
      omega

/-- C7: in the `_run_sse_monitor` loop, every successful connect resets
the consecutive-failure counter to zero; and a run of consecutive connect
failures reaching `max_retries` terminates the loop after exactly
`max_retries` attempts — whatever outcomes are scripted after the run,
no further connect attempt is performed. -/
theorem retry_ceiling_terminates :
    (∀ (m a : Nat) (rest : List Bool),
        run_connect_loop m a (true :: rest) = 1 + run_connect_loop m 0 rest) ∧
    (∀ (m : Nat) (rest : List Bool), 1 ≤ m →
        run_connect_loop m 0 (List.replicate m false ++ rest) = m) := by
  constructor
  · intro m a rest; rfl
  · intro m rest hm
    exact run_connect_loop_exhaust m m 0 rest hm (by omega)

theorem retry_ceiling_terminates_witness :
    1 ≤ 3 ∧ run_connect_loop 3 0 (List.replicate 3 false ++ [true, true]) = 3 :=
  ⟨by decide, retry_ceiling_terminates.2 3 [true, true] (by decide)⟩

/-- Sanity evaluation of the decoder on representative concrete lines:
tokens for the three recognized prefixes, `none` for blank, comment and
unknown-field lines. -/
theorem parse_sse_line_examples :
    parse_sse_line jlNone "event: trade" = some (.event "trade") ∧
    parse_sse_line jlNone "data: hi" = some (.data (textFallback "hi")) ∧
    parse_sse_line jlNone "id:  77 " = some (.id "77") ∧
    parse_sse_line jlNone ": comment" = none ∧
    parse_sse_line jlNone "" = none ∧
    parse_sse_line jlNone "retry: 5" = none :=
  ⟨rfl, rfl, rfl, rfl, rfl, rfl⟩
